import Mathlib

/- A shallow embedding of the IR debug printer in src/src/ir_print.cpp.

   The printer writes text to a FILE sink; here each printing function
   returns the String it appends.  The fatal paths of the C code
   (zig_unreachable, a failed assert, indexing past the end of an array,
   or reading a member of a C union that was not the one stored) are
   modelled by Option.none: a render that returns some s appends exactly
   s, a render that returns none aborts.  -/

namespace ZigIr

/-- Kind tag of a BigNum value (checked by the asserts in the Int and
Float cases of ir_print_const_value). -/
inductive BigNumKind where
  | int
  | float
deriving DecidableEq

/-- Payload union of a BigNum.  The x_uint member is an unsigned 64-bit
integer printed with %llu, modelled as a Nat printed in decimal.  The
x_float member is a double printed with %f; floating-point formatting is
outside this embedding, so the member stores the text that %f produces
for it. -/
inductive BigNumData where
  | x_uint (n : Nat)
  | x_float (text : String)
deriving DecidableEq

/-- BigNum as read by ir_print_const_value: a kind tag, a sign flag, and
the payload union. -/
structure BigNum where
  kind : BigNumKind
  is_negative : Bool
  data : BigNumData
deriving DecidableEq

/-- The only field of FnTableEntry this printer reads is symbol_name. -/
structure FnTableEntry where
  symbol_name : String
deriving DecidableEq

/-- A type table entry: the tag (TypeTableEntryId) together with the
fields of its data union that ir_print.cpp reads, plus the name buffer
that several cases print.  Constructor names follow the C enum
TypeTableEntryId. -/
inductive TypeTableEntry where
  | typeDecl (name : String) (canonical_type : TypeTableEntry)
  | invalid (name : String)
  | var (name : String)
  | void (name : String)
  | numLitFloat (name : String)
  | numLitInt (name : String)
  | metaType (name : String)
  | int (name : String)
  | float (name : String)
  | unreachable (name : String)
  | bool (name : String)
  | pointer (name : String) (child_type : TypeTableEntry)
  | fn (name : String)
  | block (name : String)
  | array (name : String) (len : Nat) (child_type : TypeTableEntry)
  | nullLit (name : String)
  | undefLit (name : String)
  | maybe (name : String) (child_type : TypeTableEntry)
  | namespaceId (name : String)
  | boundFn (name : String)
  | struct (name : String)
  | enum (name : String)
  | errorUnion (name : String)
  | union (name : String)
  | pureError (name : String)
deriving DecidableEq

/-- The name buffer of a type table entry (buf_ptr of type_entry.name). -/
def TypeTableEntry.name : TypeTableEntry → String
  | .typeDecl n _ => n
  | .invalid n => n
  | .var n => n
  | .void n => n
  | .numLitFloat n => n
  | .numLitInt n => n
  | .metaType n => n
  | .int n => n
  | .float n => n
  | .unreachable n => n
  | .bool n => n
  | .pointer n _ => n
  | .fn n => n
  | .block n => n
  | .array n _ _ => n
  | .nullLit n => n
  | .undefLit n => n
  | .maybe n _ => n
  | .namespaceId n => n
  | .boundFn n => n
  | .struct n => n
  | .enum n => n
  | .errorUnion n => n
  | .union n => n
  | .pureError n => n

mutual

/-- The fields of IrInstruction that ir_print.cpp reads when an
instruction appears as an operand or gets its line prefix printed:
debug_id, type_entry (nullable), ref_count, the has-side-effects flag,
and the embedded static_value.  The flag backs ir_has_side_effects,
which is declared in ir.hpp and defined outside this file; see
ir_has_side_effects below. -/
inductive IrInstruction where
  | mk (debug_id : Nat) (type_entry : Option TypeTableEntry) (ref_count : Nat)
      (has_side_effects : Bool) (static_value : ConstExprValue)

/-- ConstExprValue: the special tag (ConstValSpecial) together with the
data union; the union payload is only meaningful for the Static tag. -/
inductive ConstExprValue where
  | runtime
  | undef
  | zeroes
  | static (data : ConstValData)

/-- The members of the ConstExprValue data union that ir_print.cpp
reads, one constructor per member.  Reading a member other than the one
stored is undefined behaviour in C; the renderer returns none in that
case.  x_ptr is the pointee value: const_ptr_pointee is defined outside
this file, and the spec says a pointer value owns or aliases a pointee
value that is recursively rendered, so the pointee is stored directly.
x_none stands for the union of a value whose type-kind reads no
member. -/
inductive ConstValData where
  | x_bignum (bignum : BigNum)
  | x_type (t : TypeTableEntry)
  | x_bool (b : Bool)
  | x_fn (fn_entry : FnTableEntry)
  | x_block (line : Nat) (column : Nat)
  | x_ptr (pointee : ConstExprValue)
  | x_array (elements : List ConstExprValue)
  | x_maybe (child : Option ConstExprValue)
  | x_import (path : String)
  | x_bound_fn (fn_entry : FnTableEntry) (first_arg : IrInstruction)
  | x_none

end

def IrInstruction.debug_id : IrInstruction → Nat
  | .mk d _ _ _ _ => d

def IrInstruction.type_entry : IrInstruction → Option TypeTableEntry
  | .mk _ t _ _ _ => t

def IrInstruction.ref_count : IrInstruction → Nat
  | .mk _ _ rc _ _ => rc

def IrInstruction.has_side_effects : IrInstruction → Bool
  | .mk _ _ _ se _ => se

def IrInstruction.static_value : IrInstruction → ConstExprValue
  | .mk _ _ _ _ sv => sv

/-- Whether static_value.special is ConstValSpecialRuntime (the test in
ir_print_other_instruction). -/
def ConstExprValue.special_is_runtime : ConstExprValue → Bool
  | .runtime => true
  | _ => false

/-- ir_print_var_instruction: prints the short reference token for an
instruction, "#" followed by its debug id. -/
def ir_print_var_instruction (i : IrInstruction) : String :=
  "#" ++ Nat.repr i.debug_id

mutual

/-- ir_print_const_value: dispatches on const_val.special first
(Runtime is zig_unreachable, Undef and Zeroes print fixed literals),
then on type_entry.id.  The TypeDecl case of the C code calls
ir_print_const_value on the canonical type with the same value; since
the value is unchanged its special tag is still Static there. -/
def ir_print_const_value (ty : TypeTableEntry) (v : ConstExprValue) : Option String :=
  match v with
  | .runtime => none
  | .undef => some "undefined"
  | .zeroes => some "zeroes"
  | .static data =>
    match ty with
    | .typeDecl _ canonical => ir_print_const_value canonical (.static data)
    | .invalid _ => some "(invalid)"
    | .var _ => some "(var)"
    | .void _ => some "\x7b\x7d"
    | .numLitFloat _ =>
      match data with
      | .x_bignum bignum =>
        match bignum.data with
        | .x_float text => some text
        | _ => none
      | _ => none
    | .numLitInt _ =>
      match data with
      | .x_bignum bignum =>
        match bignum.data with
        | .x_uint n => some ((if bignum.is_negative then "-" else "") ++ Nat.repr n)
        | _ => none
      | _ => none
    | .metaType _ =>
      match data with
      | .x_type t => some t.name
      | _ => none
    | .int _ =>
      match data with
      | .x_bignum bignum =>
        if bignum.kind = BigNumKind.int then
          match bignum.data with
          | .x_uint n => some ((if bignum.is_negative then "-" else "") ++ Nat.repr n)
          | _ => none
        else none
      | _ => none
    | .float _ =>
      match data with
      | .x_bignum bignum =>
        if bignum.kind = BigNumKind.float then
          match bignum.data with
          | .x_float text => some text
          | _ => none
        else none
      | _ => none
    | .unreachable _ => some "@unreachable()"
    | .bool _ =>
      match data with
      | .x_bool b => some (if b then "true" else "false")
      | _ => none
    | .pointer _ child_type =>
      match data with
      | .x_ptr pointee =>
        match ir_print_const_value child_type pointee with
        | some s => some ("&" ++ s)
        | none => none
      | _ => none
    | .fn _ =>
      match data with
      | .x_fn fe => some fe.symbol_name
      | _ => none
    | .block _ =>
      match data with
      | .x_block line column =>
        some ("(scope:" ++ Nat.repr (line + 1) ++ ":" ++ Nat.repr (column + 1) ++ ")")
      | _ => none
    | .array name len child_type =>
      match data with
      | .x_array elements =>
        match ir_print_elements child_type elements len with
        | some ss => some (name ++ "\x7b" ++ String.intercalate "," ss ++ "\x7d")
        | none => none
      | _ => none
    | .nullLit _ => some "null"
    | .undefLit _ => some "undefined"
    | .maybe _ child_type =>
      match data with
      | .x_maybe (some child) => ir_print_const_value child_type child
      | .x_maybe none => some "null"
      | _ => none
    | .namespaceId _ =>
      match data with
      | .x_import path => some ("(namespace: " ++ path ++ ")")
      | _ => none
    | .boundFn _ =>
      match data with
      | .x_bound_fn fe first_arg =>
        match ir_print_other_instruction first_arg with
        | some r => some ("bound " ++ fe.symbol_name ++ " to " ++ r)
        | none => none
      | _ => none
    | .struct name => some ("(struct " ++ name ++ " constant)")
    | .enum name => some ("(enum " ++ name ++ " constant)")
    | .errorUnion name => some ("(error union " ++ name ++ " constant)")
    | .union name => some ("(union " ++ name ++ " constant)")
    | .pureError _ => some "(pure error constant)"
termination_by (sizeOf v, sizeOf ty, 0)

/-- The element loop of the Array case: for i in [0, len) render
elements[i] at the element type.  Running past the end of the element
array (len exceeds the number of stored elements) is the fatal case. -/
def ir_print_elements (child_type : TypeTableEntry) (elements : List ConstExprValue)
    (len : Nat) : Option (List String) :=
  match len, elements with
  | 0, _ => some []
  | _ + 1, [] => none
  | n + 1, e :: rest =>
    match ir_print_const_value child_type e, ir_print_elements child_type rest n with
    | some s, some ss => some (s :: ss)
    | _, _ => none
termination_by (sizeOf elements, sizeOf child_type, 0)

/-- ir_print_const_instruction: renders the instruction's own static
value at the instruction's resolved type.  A null type_entry would be
dereferenced here in C, which is the fatal case. -/
def ir_print_const_instruction (i : IrInstruction) : Option String :=
  match i with
  | .mk _ (some ty) _ _ sv => ir_print_const_value ty sv
  | .mk _ none _ _ _ => none
termination_by (sizeOf i, 0, 0)

/-- ir_print_other_instruction: the operand reference renderer.  A
non-Runtime operand is rendered inline as its constant value; a Runtime
operand is rendered as the short token "#" ++ debug id. -/
def ir_print_other_instruction (i : IrInstruction) : Option String :=
  if i.static_value.special_is_runtime = false then
    ir_print_const_instruction i
  else
    some (ir_print_var_instruction i)
termination_by (sizeOf i, 0, 1)

end

/-- A basic block as referenced by instructions (Phi incoming blocks,
branch targets): ir_print.cpp reads only name_hint and debug_id through
such references.  The instructions a block owns are kept on
IrBasicBlockFull below, because references may point at blocks defined
later in the graph (one-hop rendering never follows them). -/
structure IrBasicBlock where
  name_hint : String
  debug_id : Nat
deriving DecidableEq

/-- ir_print_other_block: the reference token for a block operand. -/
def ir_print_other_block (bb : IrBasicBlock) : String :=
  "$" ++ bb.name_hint ++ "_" ++ Nat.repr bb.debug_id

/-- Renders a list of operand instructions in order; none if any
operand render is fatal.  Shared by the argument and item loops. -/
def render_operand_texts (items : List IrInstruction) : Option (List String) :=
  match items with
  | [] => some []
  | i :: rest =>
    match ir_print_other_instruction i, render_operand_texts rest with
    | some s, some ss => some (s :: ss)
    | _, _ => none

/-- ir_bin_op_id_str: the source-level token for a binary operator;
IrBinOpInvalid is zig_unreachable.  Constructor names follow the C enum
IrBinOp. -/
inductive IrBinOp where
  | invalid
  | boolOr
  | boolAnd
  | cmpEq
  | cmpNotEq
  | cmpLessThan
  | cmpGreaterThan
  | cmpLessOrEq
  | cmpGreaterOrEq
  | binOr
  | binXor
  | binAnd
  | bitShiftLeft
  | bitShiftLeftWrap
  | bitShiftRight
  | add
  | addWrap
  | sub
  | subWrap
  | mult
  | multWrap
  | div
  | mod
  | arrayCat
  | arrayMult
deriving DecidableEq

def ir_bin_op_id_str : IrBinOp → Option String
  | .invalid => none
  | .boolOr => some "BoolOr"
  | .boolAnd => some "BoolAnd"
  | .cmpEq => some "=="
  | .cmpNotEq => some "!="
  | .cmpLessThan => some "<"
  | .cmpGreaterThan => some ">"
  | .cmpLessOrEq => some "<="
  | .cmpGreaterOrEq => some ">="
  | .binOr => some "|"
  | .binXor => some "^"
  | .binAnd => some "&"
  | .bitShiftLeft => some "<<"
  | .bitShiftLeftWrap => some "<<%"
  | .bitShiftRight => some ">>"
  | .add => some "+"
  | .addWrap => some "+%"
  | .sub => some "-"
  | .subWrap => some "-%"
  | .mult => some "*"
  | .multWrap => some "*%"
  | .div => some "/"
  | .mod => some "%"
  | .arrayCat => some "++"
  | .arrayMult => some "**"

/-- ir_un_op_id_str; IrUnOpInvalid is zig_unreachable. -/
inductive IrUnOp where
  | invalid
  | boolNot
  | binNot
  | negation
  | negationWrap
  | addressOf
  | constAddressOf
  | dereference
  | maybe
  | error
  | unwrapError
  | unwrapMaybe
  | maybeReturn
  | errorReturn
deriving DecidableEq

def ir_un_op_id_str : IrUnOp → Option String
  | .invalid => none
  | .boolNot => some "!"
  | .binNot => some "~"
  | .negation => some "-"
  | .negationWrap => some "-%"
  | .addressOf => some "&"
  | .constAddressOf => some "&const"
  | .dereference => some "*"
  | .maybe => some "?"
  | .error => some "%"
  | .unwrapError => some "%%"
  | .unwrapMaybe => some "??"
  | .maybeReturn => some "?return"
  | .errorReturn => some "%return"

/-- The fields of VariableTableEntry read by ir_print_decl_var and
ir_print_var_ptr. -/
structure VariableTableEntry where
  name : String
  is_inline : Bool
  gen_is_const : Bool
deriving DecidableEq

structure TypeStructField where
  name : String
deriving DecidableEq

structure TypeEnumField where
  name : String
deriving DecidableEq

structure IrInstructionReturn where
  value : IrInstruction

structure IrInstructionBinOp where
  op_id : IrBinOp
  op1 : IrInstruction
  op2 : IrInstruction

structure IrInstructionDeclVar where
  var : VariableTableEntry
  var_type : Option IrInstruction
  init_value : IrInstruction

structure IrInstructionCast where
  value : IrInstruction
  dest_type : TypeTableEntry

structure IrInstructionCall where
  fn_entry : Option FnTableEntry
  fn_ref : Option IrInstruction
  args : List IrInstruction

structure IrInstructionUnOp where
  op_id : IrUnOp
  value : IrInstruction

structure IrInstructionCondBr where
  condition : IrInstruction
  then_block : IrBasicBlock
  else_block : IrBasicBlock
  is_inline : Bool

structure IrInstructionBr where
  dest_block : IrBasicBlock
  is_inline : Bool

/-- Phi keeps its incoming_count as stored in the C struct, separate
from the two arrays, because the count is what the asserts check
(SIZE_MAX is the "all" sentinel). -/
structure IrInstructionPhi where
  incoming_count : Nat
  incoming_blocks : List IrBasicBlock
  incoming_values : List IrInstruction

structure IrInstructionContainerInitList where
  container_type : IrInstruction
  items : List IrInstruction

structure IrInstructionContainerInitFieldsField where
  name : String
  value : IrInstruction

structure IrInstructionContainerInitFields where
  container_type : IrInstruction
  fields : List IrInstructionContainerInitFieldsField

structure IrInstructionStructInitField where
  type_struct_field : TypeStructField
  value : IrInstruction

structure IrInstructionStructInit where
  struct_type : TypeTableEntry
  fields : List IrInstructionStructInitField

structure IrInstructionElemPtr where
  array_ptr : IrInstruction
  elem_index : IrInstruction
  safety_check_on : Bool

structure IrInstructionVarPtr where
  var : VariableTableEntry

structure IrInstructionLoadPtr where
  ptr : IrInstruction

structure IrInstructionStorePtr where
  ptr : IrInstruction
  value : IrInstruction

structure IrInstructionTypeOf where
  value : IrInstruction

structure IrInstructionToPtrType where
  value : IrInstruction

structure IrInstructionPtrTypeChild where
  value : IrInstruction

structure IrInstructionFieldPtr where
  container_ptr : IrInstruction
  field_name : String

structure IrInstructionStructFieldPtr where
  struct_ptr : IrInstruction
  field : TypeStructField

structure IrInstructionEnumFieldPtr where
  enum_ptr : IrInstruction
  field : TypeEnumField

structure IrInstructionSetFnTest where
  fn_value : IrInstruction
  is_test : IrInstruction

structure IrInstructionSetFnVisible where
  fn_value : IrInstruction
  is_visible : IrInstruction

structure IrInstructionSetDebugSafety where
  scope_value : IrInstruction
  debug_safety_on : IrInstruction

structure IrInstructionArrayType where
  size : IrInstruction
  child_type : IrInstruction

structure IrInstructionSliceType where
  is_const : Bool
  child_type : IrInstruction

/-- One entry of the asm output list (from the AsmExpr AST node).  In C
return_type is a nullable AstNode pointer only tested for null here, so
it is modelled as the Bool of that test. -/
structure AsmOutput where
  asm_symbolic_name : String
  constraint : String
  return_type : Bool
  variable_name : String
deriving DecidableEq

structure AsmInput where
  asm_symbolic_name : String
  constraint : String
deriving DecidableEq

/-- ir_print_asm reads the AsmExpr AST node of the instruction's source
node (the assert checks it is one; holding the node data directly makes
that true by construction) together with the instruction's own
output_types, input_list and has_side_effects fields. -/
structure IrInstructionAsm where
  asm_template : String
  output_list : List AsmOutput
  output_types : List IrInstruction
  input_list_nodes : List AsmInput
  input_list : List IrInstruction
  clobber_list : List String
  has_side_effects : Bool

structure IrInstructionCompileVar where
  name : IrInstruction

structure IrInstructionSizeOf where
  type_value : IrInstruction

structure IrInstructionTestNull where
  value : IrInstruction

structure IrInstructionUnwrapMaybe where
  value : IrInstruction
  safety_check_on : Bool

structure IrInstructionClz where
  value : IrInstruction

structure IrInstructionCtz where
  value : IrInstruction

structure IrInstructionSwitchBrCase where
  value : IrInstruction
  block : IrBasicBlock

structure IrInstructionSwitchBr where
  target_value : IrInstruction
  cases : List IrInstructionSwitchBrCase
  else_block : IrBasicBlock
  is_inline : Bool

structure IrInstructionSwitchVar where
  target_value_ptr : IrInstruction
  prong_value : IrInstruction

structure IrInstructionSwitchTarget where
  target_value_ptr : IrInstruction

structure IrInstructionEnumTag where
  value : IrInstruction

structure IrInstructionStaticEval where
  value : IrInstruction

structure IrInstructionImport where
  name : IrInstruction

structure IrInstructionArrayLen where
  array_value : IrInstruction

structure IrInstructionRef where
  value : IrInstruction

def ir_print_return (p : IrInstructionReturn) : Option String :=
  match ir_print_other_instruction p.value with
  | some v => some ("return " ++ v)
  | none => none

/-- ir_print_const renders the base instruction's own constant value. -/
def ir_print_const (base : IrInstruction) : Option String :=
  ir_print_const_instruction base

def ir_print_bin_op (p : IrInstructionBinOp) : Option String :=
  match ir_print_other_instruction p.op1, ir_bin_op_id_str p.op_id,
      ir_print_other_instruction p.op2 with
  | some l, some op, some r => some (l ++ " " ++ op ++ " " ++ r)
  | _, _, _ => none

def ir_print_un_op (p : IrInstructionUnOp) : Option String :=
  match ir_un_op_id_str p.op_id, ir_print_other_instruction p.value with
  | some op, some v => some (op ++ " " ++ v)
  | _, _ => none

def ir_print_decl_var (p : IrInstructionDeclVar) : Option String :=
  let inline_kw := if p.var.is_inline then "inline " else ""
  let var_or_const := if p.var.gen_is_const then "const" else "var"
  match p.var_type with
  | some vt =>
    match ir_print_other_instruction vt, ir_print_other_instruction p.init_value with
    | some t, some init =>
      some (inline_kw ++ var_or_const ++ " " ++ p.var.name ++ ": " ++ t ++ " = " ++ init)
    | _, _ => none
  | none =>
    match ir_print_other_instruction p.init_value with
    | some init => some (inline_kw ++ var_or_const ++ " " ++ p.var.name ++ " = " ++ init)
    | none => none

def ir_print_cast (p : IrInstructionCast) : Option String :=
  match ir_print_other_instruction p.value with
  | some v => some ("cast " ++ v ++ " to " ++ p.dest_type.name)
  | none => none

def ir_print_call (p : IrInstructionCall) : Option String :=
  let callee : Option String :=
    match p.fn_entry with
    | some fe => some fe.symbol_name
    | none =>
      match p.fn_ref with
      | some fr => ir_print_other_instruction fr
      | none => none
  match callee, render_operand_texts p.args with
  | some c, some args => some (c ++ "(" ++ String.intercalate ", " args ++ ")")
  | _, _ => none

def ir_print_cond_br (p : IrInstructionCondBr) : Option String :=
  let inline_kw := if p.is_inline then "inline " else ""
  match ir_print_other_instruction p.condition with
  | some c =>
    some (inline_kw ++ "if (" ++ c ++ ") " ++ ir_print_other_block p.then_block
      ++ " else " ++ ir_print_other_block p.else_block)
  | none => none

def ir_print_br (p : IrInstructionBr) : Option String :=
  let inline_kw := if p.is_inline then "inline " else ""
  some (inline_kw ++ "goto " ++ ir_print_other_block p.dest_block)

/-- SIZE_MAX on the 64-bit targets the compiler builds for. -/
def SIZE_MAX : Nat := 2 ^ 64 - 1

/-- The Phi pair loop: for i in [0, len) render
incoming_blocks[i] ++ ":" ++ incoming_values[i]; running past the end
of either array is the fatal case. -/
def ir_print_phi_pairs (blocks : List IrBasicBlock) (values : List IrInstruction)
    (len : Nat) : Option (List String) :=
  match len, blocks, values with
  | 0, _, _ => some []
  | n + 1, b :: bs, v :: vs =>
    match ir_print_other_instruction v, ir_print_phi_pairs bs vs n with
    | some s, some ss => some ((ir_print_other_block b ++ ":" ++ s) :: ss)
    | _, _ => none
  | _ + 1, _, _ => none

/-- The body of ir_print_phi after its two asserts have passed. -/
def ir_print_phi_body (p : IrInstructionPhi) : Option String :=
  match ir_print_phi_pairs p.incoming_blocks p.incoming_values p.incoming_count with
  | some pairs => some (String.intercalate " " pairs)
  | none => none

/-- ir_print_phi: asserts incoming_count is neither 0 nor SIZE_MAX,
then prints the space-separated block:value pairs. -/
def ir_print_phi (p : IrInstructionPhi) : Option String :=
  if p.incoming_count = 0 ∨ p.incoming_count = SIZE_MAX then none
  else ir_print_phi_body p

def ir_print_container_init_list (p : IrInstructionContainerInitList) : Option String :=
  match ir_print_other_instruction p.container_type, render_operand_texts p.items with
  | some ct, some items =>
    some (ct ++ "\x7b" ++ String.intercalate ", " items ++ "\x7d")
  | _, _ => none

def render_container_field_texts (fields : List IrInstructionContainerInitFieldsField) :
    Option (List String) :=
  match fields with
  | [] => some []
  | f :: rest =>
    match ir_print_other_instruction f.value, render_container_field_texts rest with
    | some v, some vs => some (("." ++ f.name ++ " = " ++ v) :: vs)
    | _, _ => none

def ir_print_container_init_fields (p : IrInstructionContainerInitFields) : Option String :=
  match ir_print_other_instruction p.container_type, render_container_field_texts p.fields with
  | some ct, some fs =>
    some (ct ++ "\x7b" ++ String.intercalate ", " fs ++ "\x7d // container init")
  | _, _ => none

def render_struct_field_texts (fields : List IrInstructionStructInitField) :
    Option (List String) :=
  match fields with
  | [] => some []
  | f :: rest =>
    match ir_print_other_instruction f.value, render_struct_field_texts rest with
    | some v, some vs => some (("." ++ f.type_struct_field.name ++ " = " ++ v) :: vs)
    | _, _ => none

def ir_print_struct_init (p : IrInstructionStructInit) : Option String :=
  match render_struct_field_texts p.fields with
  | some fs =>
    some (p.struct_type.name ++ " \x7b" ++ String.intercalate ", " fs ++ "\x7d // struct init")
  | none => none

def ir_print_unreachable : Option String :=
  some "unreachable"

def ir_print_elem_ptr (p : IrInstructionElemPtr) : Option String :=
  match ir_print_other_instruction p.array_ptr, ir_print_other_instruction p.elem_index with
  | some a, some i =>
    some ("&" ++ a ++ "[" ++ i ++ "]" ++ (if p.safety_check_on then "" else " // no safety"))
  | _, _ => none

def ir_print_var_ptr (p : IrInstructionVarPtr) : Option String :=
  some ("&" ++ p.var.name)

def ir_print_load_ptr (p : IrInstructionLoadPtr) : Option String :=
  match ir_print_other_instruction p.ptr with
  | some pt => some ("*" ++ pt)
  | none => none

/-- ir_print_store_ptr: the pointer operand is printed with
ir_print_var_instruction (always the "#id" token), the stored value
with the operand reference renderer. -/
def ir_print_store_ptr (p : IrInstructionStorePtr) : Option String :=
  match ir_print_other_instruction p.value with
  | some v => some ("*" ++ ir_print_var_instruction p.ptr ++ " = " ++ v)
  | none => none

def ir_print_typeof (p : IrInstructionTypeOf) : Option String :=
  match ir_print_other_instruction p.value with
  | some v => some ("@typeOf(" ++ v ++ ")")
  | none => none

def ir_print_to_ptr_type (p : IrInstructionToPtrType) : Option String :=
  match ir_print_other_instruction p.value with
  | some v => some ("@toPtrType(" ++ v ++ ")")
  | none => none

def ir_print_ptr_type_child (p : IrInstructionPtrTypeChild) : Option String :=
  match ir_print_other_instruction p.value with
  | some v => some ("@ptrTypeChild(" ++ v ++ ")")
  | none => none

def ir_print_field_ptr (p : IrInstructionFieldPtr) : Option String :=
  match ir_print_other_instruction p.container_ptr with
  | some c => some ("fieldptr " ++ c ++ "." ++ p.field_name)
  | none => none

def ir_print_struct_field_ptr (p : IrInstructionStructFieldPtr) : Option String :=
  match ir_print_other_instruction p.struct_ptr with
  | some s => some ("@StructFieldPtr(&" ++ s ++ "." ++ p.field.name ++ ")")
  | none => none

def ir_print_enum_field_ptr (p : IrInstructionEnumFieldPtr) : Option String :=
  match ir_print_other_instruction p.enum_ptr with
  | some s => some ("@EnumFieldPtr(&" ++ s ++ "." ++ p.field.name ++ ")")
  | none => none

def ir_print_set_fn_test (p : IrInstructionSetFnTest) : Option String :=
  match ir_print_other_instruction p.fn_value, ir_print_other_instruction p.is_test with
  | some f, some t => some ("@setFnTest(" ++ f ++ ", " ++ t ++ ")")
  | _, _ => none

def ir_print_set_fn_visible (p : IrInstructionSetFnVisible) : Option String :=
  match ir_print_other_instruction p.fn_value, ir_print_other_instruction p.is_visible with
  | some f, some v => some ("@setFnVisible(" ++ f ++ ", " ++ v ++ ")")
  | _, _ => none

def ir_print_set_debug_safety (p : IrInstructionSetDebugSafety) : Option String :=
  match ir_print_other_instruction p.scope_value,
      ir_print_other_instruction p.debug_safety_on with
  | some s, some d => some ("@setDebugSafety(" ++ s ++ ", " ++ d ++ ")")
  | _, _ => none

def ir_print_array_type (p : IrInstructionArrayType) : Option String :=
  match ir_print_other_instruction p.size, ir_print_other_instruction p.child_type with
  | some s, some c => some ("[" ++ s ++ "]" ++ c)
  | _, _ => none

def ir_print_slice_type (p : IrInstructionSliceType) : Option String :=
  let const_kw := if p.is_const then "const " else ""
  match ir_print_other_instruction p.child_type with
  | some c => some ("[]" ++ const_kw ++ c)
  | none => none

/-- The asm output loop: each entry prints its symbolic name and
constraint, then either "-> " and the matching output_types instruction
(when the AST entry has a return type) or the variable name. -/
def render_asm_output_texts (outs : List AsmOutput) (types : List IrInstruction) :
    Option (List String) :=
  match outs with
  | [] => some []
  | o :: rest =>
    let item : Option String :=
      if o.return_type then
        match types.head? with
        | some t =>
          match ir_print_other_instruction t with
          | some r => some ("-> " ++ r)
          | none => none
        | none => none
      else some o.variable_name
    match item, render_asm_output_texts rest types.tail with
    | some it, some its =>
      some (("[" ++ o.asm_symbolic_name ++ "] \"" ++ o.constraint ++ "\" (" ++ it ++ ")") :: its)
    | _, _ => none

def render_asm_input_texts (ins : List AsmInput) (values : List IrInstruction) :
    Option (List String) :=
  match ins, values with
  | [], _ => some []
  | i :: rest, v :: vs =>
    match ir_print_other_instruction v, render_asm_input_texts rest vs with
    | some s, some ss =>
      some (("[" ++ i.asm_symbolic_name ++ "] \"" ++ i.constraint ++ "\" (" ++ s ++ ")") :: ss)
    | _, _ => none
  | _ :: _, [] => none

def ir_print_asm (p : IrInstructionAsm) : Option String :=
  let volatile_kw := if p.has_side_effects then " volatile" else ""
  match render_asm_output_texts p.output_list p.output_types,
      render_asm_input_texts p.input_list_nodes p.input_list with
  | some outs, some ins =>
    some ("asm" ++ volatile_kw ++ " (\"" ++ p.asm_template ++ "\") : "
      ++ String.intercalate ", " outs
      ++ " : " ++ String.intercalate ", " ins
      ++ " : " ++ String.intercalate ", " (p.clobber_list.map (fun r => "\"" ++ r ++ "\""))
      ++ ")")
  | _, _ => none

def ir_print_compile_var (p : IrInstructionCompileVar) : Option String :=
  match ir_print_other_instruction p.name with
  | some n => some ("@compileVar(" ++ n ++ ")")
  | none => none

def ir_print_size_of (p : IrInstructionSizeOf) : Option String :=
  match ir_print_other_instruction p.type_value with
  | some t => some ("@sizeOf(" ++ t ++ ")")
  | none => none

def ir_print_test_null (p : IrInstructionTestNull) : Option String :=
  match ir_print_other_instruction p.value with
  | some v => some ("*" ++ v ++ " == null")
  | none => none

def ir_print_unwrap_maybe (p : IrInstructionUnwrapMaybe) : Option String :=
  match ir_print_other_instruction p.value with
  | some v => some ("&??*" ++ v ++ (if p.safety_check_on then "" else " // no safety"))
  | none => none

def ir_print_clz (p : IrInstructionClz) : Option String :=
  match ir_print_other_instruction p.value with
  | some v => some ("@clz(" ++ v ++ ")")
  | none => none

def ir_print_ctz (p : IrInstructionCtz) : Option String :=
  match ir_print_other_instruction p.value with
  | some v => some ("@ctz(" ++ v ++ ")")
  | none => none

/-- The switch case loop: every case, including the last, is followed
by ", ", and the mandatory else prong comes after. -/
def render_switch_case_text (cases : List IrInstructionSwitchBrCase) : Option String :=
  match cases with
  | [] => some ""
  | c :: rest =>
    match ir_print_other_instruction c.value, render_switch_case_text rest with
    | some v, some restS =>
      some (v ++ " => " ++ ir_print_other_block c.block ++ ", " ++ restS)
    | _, _ => none

def ir_print_switch_br (p : IrInstructionSwitchBr) : Option String :=
  let inline_kw := if p.is_inline then "inline " else ""
  match ir_print_other_instruction p.target_value, render_switch_case_text p.cases with
  | some t, some cs =>
    some (inline_kw ++ "switch (" ++ t ++ ") " ++ cs
      ++ "else => " ++ ir_print_other_block p.else_block)
  | _, _ => none

def ir_print_switch_var (p : IrInstructionSwitchVar) : Option String :=
  match ir_print_other_instruction p.target_value_ptr,
      ir_print_other_instruction p.prong_value with
  | some t, some pr => some ("switchvar " ++ t ++ ", " ++ pr)
  | _, _ => none

def ir_print_switch_target (p : IrInstructionSwitchTarget) : Option String :=
  match ir_print_other_instruction p.target_value_ptr with
  | some t => some ("switchtarget " ++ t)
  | none => none

def ir_print_enum_tag (p : IrInstructionEnumTag) : Option String :=
  match ir_print_other_instruction p.value with
  | some v => some ("enumtag " ++ v)
  | none => none

def ir_print_static_eval (p : IrInstructionStaticEval) : Option String :=
  match ir_print_other_instruction p.value with
  | some v => some ("@staticEval(" ++ v ++ ")")
  | none => none

def ir_print_import (p : IrInstructionImport) : Option String :=
  match ir_print_other_instruction p.name with
  | some n => some ("@import(" ++ n ++ ")")
  | none => none

def ir_print_array_len (p : IrInstructionArrayLen) : Option String :=
  match ir_print_other_instruction p.array_value with
  | some a => some (a ++ ".len")
  | none => none

def ir_print_ref (p : IrInstructionRef) : Option String :=
  match ir_print_other_instruction p.value with
  | some v => some ("ref " ++ v)
  | none => none

/-- The instruction-kind dispatch of ir_print_instruction: one
constructor per IrInstructionId value, carrying the fields the C code
reaches through the downcast.  Const carries nothing extra: its
renderer uses only the base instruction. -/
inductive IrInstructionVariant where
  | IrInstructionIdInvalid
  | IrInstructionIdReturn (p : IrInstructionReturn)
  | IrInstructionIdConst
  | IrInstructionIdBinOp (p : IrInstructionBinOp)
  | IrInstructionIdDeclVar (p : IrInstructionDeclVar)
  | IrInstructionIdCast (p : IrInstructionCast)
  | IrInstructionIdCall (p : IrInstructionCall)
  | IrInstructionIdUnOp (p : IrInstructionUnOp)
  | IrInstructionIdCondBr (p : IrInstructionCondBr)
  | IrInstructionIdBr (p : IrInstructionBr)
  | IrInstructionIdPhi (p : IrInstructionPhi)
  | IrInstructionIdContainerInitList (p : IrInstructionContainerInitList)
  | IrInstructionIdContainerInitFields (p : IrInstructionContainerInitFields)
  | IrInstructionIdStructInit (p : IrInstructionStructInit)
  | IrInstructionIdUnreachable
  | IrInstructionIdElemPtr (p : IrInstructionElemPtr)
  | IrInstructionIdVarPtr (p : IrInstructionVarPtr)
  | IrInstructionIdLoadPtr (p : IrInstructionLoadPtr)
  | IrInstructionIdStorePtr (p : IrInstructionStorePtr)
  | IrInstructionIdTypeOf (p : IrInstructionTypeOf)
  | IrInstructionIdToPtrType (p : IrInstructionToPtrType)
  | IrInstructionIdPtrTypeChild (p : IrInstructionPtrTypeChild)
  | IrInstructionIdFieldPtr (p : IrInstructionFieldPtr)
  | IrInstructionIdStructFieldPtr (p : IrInstructionStructFieldPtr)
  | IrInstructionIdEnumFieldPtr (p : IrInstructionEnumFieldPtr)
  | IrInstructionIdSetFnTest (p : IrInstructionSetFnTest)
  | IrInstructionIdSetFnVisible (p : IrInstructionSetFnVisible)
  | IrInstructionIdSetDebugSafety (p : IrInstructionSetDebugSafety)
  | IrInstructionIdArrayType (p : IrInstructionArrayType)
  | IrInstructionIdSliceType (p : IrInstructionSliceType)
  | IrInstructionIdAsm (p : IrInstructionAsm)
  | IrInstructionIdCompileVar (p : IrInstructionCompileVar)
  | IrInstructionIdSizeOf (p : IrInstructionSizeOf)
  | IrInstructionIdTestNull (p : IrInstructionTestNull)
  | IrInstructionIdUnwrapMaybe (p : IrInstructionUnwrapMaybe)
  | IrInstructionIdCtz (p : IrInstructionCtz)
  | IrInstructionIdClz (p : IrInstructionClz)
  | IrInstructionIdSwitchBr (p : IrInstructionSwitchBr)
  | IrInstructionIdSwitchVar (p : IrInstructionSwitchVar)
  | IrInstructionIdSwitchTarget (p : IrInstructionSwitchTarget)
  | IrInstructionIdEnumTag (p : IrInstructionEnumTag)
  | IrInstructionIdStaticEval (p : IrInstructionStaticEval)
  | IrInstructionIdImport (p : IrInstructionImport)
  | IrInstructionIdArrayLen (p : IrInstructionArrayLen)
  | IrInstructionIdRef (p : IrInstructionRef)

/-- An instruction as it sits in a block: the base fields every
instruction has, plus the kind-specific ones.  In C this is one object
(the specific struct embeds the base); operands reference other
instructions through their base. -/
structure IrInstructionFull where
  base : IrInstruction
  variant : IrInstructionVariant

/-- ir_print_indent: irp.indent space characters, where ir_print sets
indent to the indent_size argument and never changes it. -/
def ir_print_indent (indent : Nat) : String :=
  String.mk (List.replicate indent ' ')

/-- Left-justified minimum-width field of fprintf (a %-Ns conversion):
pad on the right with spaces up to width w, never truncate. -/
def pad_right (s : String) (w : Nat) : String :=
  s ++ String.mk (List.replicate (w - s.length) ' ')

/-- Modelled from the spec: ir_has_side_effects is declared in ir.hpp
and defined in ir.cpp, neither of which is part of this snapshot.  The
spec's data model gives every instruction a has-side-effects flag, so
the flag is stored on the instruction and this function reads it. -/
def ir_has_side_effects (i : IrInstruction) : Bool :=
  i.has_side_effects

/-- The type-name column: the resolved type's name, or "(unknown)" when
type_entry is null. -/
def type_name_text (i : IrInstruction) : String :=
  match i.type_entry with
  | some t => t.name
  | none => "(unknown)"

/-- The use-count column (the ref_count local of ir_print_prefix):
"-" for a side-effecting instruction, the decimal ref_count
otherwise. -/
def ref_count_text (i : IrInstruction) : String :=
  if ir_has_side_effects i then "-" else Nat.repr i.ref_count

/-- ir_print_prefix: the indent, then the line-prefix format
"#%-3zu| %-12s| %-2s| " applied to debug id, type-name column and
use-count column. -/
def ir_print_prefix (indent : Nat) (i : IrInstruction) : String :=
  ir_print_indent indent ++ "#" ++ pad_right (Nat.repr i.debug_id) 3 ++ "| "
    ++ pad_right (type_name_text i) 12 ++ "| " ++ pad_right (ref_count_text i) 2 ++ "| "

/-- The body dispatch of ir_print_instruction (everything between the
prefix and the trailing newline); IrInstructionIdInvalid is
zig_unreachable. -/
def ir_print_instruction_body (f : IrInstructionFull) : Option String :=
  match f.variant with
  | .IrInstructionIdInvalid => none
  | .IrInstructionIdReturn p => ir_print_return p
  | .IrInstructionIdConst => ir_print_const f.base
  | .IrInstructionIdBinOp p => ir_print_bin_op p
  | .IrInstructionIdDeclVar p => ir_print_decl_var p
  | .IrInstructionIdCast p => ir_print_cast p
  | .IrInstructionIdCall p => ir_print_call p
  | .IrInstructionIdUnOp p => ir_print_un_op p
  | .IrInstructionIdCondBr p => ir_print_cond_br p
  | .IrInstructionIdBr p => ir_print_br p
  | .IrInstructionIdPhi p => ir_print_phi p
  | .IrInstructionIdContainerInitList p => ir_print_container_init_list p
  | .IrInstructionIdContainerInitFields p => ir_print_container_init_fields p
  | .IrInstructionIdStructInit p => ir_print_struct_init p
  | .IrInstructionIdUnreachable => ir_print_unreachable
  | .IrInstructionIdElemPtr p => ir_print_elem_ptr p
  | .IrInstructionIdVarPtr p => ir_print_var_ptr p
  | .IrInstructionIdLoadPtr p => ir_print_load_ptr p
  | .IrInstructionIdStorePtr p => ir_print_store_ptr p
  | .IrInstructionIdTypeOf p => ir_print_typeof p
  | .IrInstructionIdToPtrType p => ir_print_to_ptr_type p
  | .IrInstructionIdPtrTypeChild p => ir_print_ptr_type_child p
  | .IrInstructionIdFieldPtr p => ir_print_field_ptr p
  | .IrInstructionIdStructFieldPtr p => ir_print_struct_field_ptr p
  | .IrInstructionIdEnumFieldPtr p => ir_print_enum_field_ptr p
  | .IrInstructionIdSetFnTest p => ir_print_set_fn_test p
  | .IrInstructionIdSetFnVisible p => ir_print_set_fn_visible p
  | .IrInstructionIdSetDebugSafety p => ir_print_set_debug_safety p
  | .IrInstructionIdArrayType p => ir_print_array_type p
  | .IrInstructionIdSliceType p => ir_print_slice_type p
  | .IrInstructionIdAsm p => ir_print_asm p
  | .IrInstructionIdCompileVar p => ir_print_compile_var p
  | .IrInstructionIdSizeOf p => ir_print_size_of p
  | .IrInstructionIdTestNull p => ir_print_test_null p
  | .IrInstructionIdUnwrapMaybe p => ir_print_unwrap_maybe p
  | .IrInstructionIdCtz p => ir_print_ctz p
  | .IrInstructionIdClz p => ir_print_clz p
  | .IrInstructionIdSwitchBr p => ir_print_switch_br p
  | .IrInstructionIdSwitchVar p => ir_print_switch_var p
  | .IrInstructionIdSwitchTarget p => ir_print_switch_target p
  | .IrInstructionIdEnumTag p => ir_print_enum_tag p
  | .IrInstructionIdStaticEval p => ir_print_static_eval p
  | .IrInstructionIdImport p => ir_print_import p
  | .IrInstructionIdArrayLen p => ir_print_array_len p
  | .IrInstructionIdRef p => ir_print_ref p

/-- ir_print_instruction: prefix, body, then one newline.  The C code
prints the prefix before rendering the body, so on a fatal body the
sink holds partial text; only complete renders are modelled. -/
def ir_print_instruction (indent : Nat) (f : IrInstructionFull) : Option String :=
  match ir_print_instruction_body f with
  | some body => some ( ir_print_prefix indent f.base ++ body ++ "\n")
  | none => none

/-- A block as the driver iterates it: the label fields plus the owned
instructions in declaration order. -/
structure IrBasicBlockFull where
  name_hint : String
  debug_id : Nat
  instruction_list : List IrInstructionFull

structure IrExecutable where
  basic_block_list : List IrBasicBlockFull

def render_instruction_lines (indent : Nat) (l : List IrInstructionFull) :
    Option (List String) :=
  match l with
  | [] => some []
  | f :: rest =>
    match ir_print_instruction indent f, render_instruction_lines indent rest with
    | some s, some ss => some (s :: ss)
    | _, _ => none

/-- One block of the driver loop: the label line "name_hint_debugid:"
(printed with no indent) and then every owned instruction. -/
def ir_print_block (indent : Nat) (b : IrBasicBlockFull) : Option String :=
  match render_instruction_lines indent b.instruction_list with
  | some lines =>
    some (b.name_hint ++ "_" ++ Nat.repr b.debug_id ++ ":\n" ++ String.join lines)
  | none => none

def render_block_texts (indent : Nat) (bs : List IrBasicBlockFull) :
    Option (List String) :=
  match bs with
  | [] => some []
  | b :: rest =>
    match ir_print_block indent b, render_block_texts indent rest with
    | some s, some ss => some (s :: ss)
    | _, _ => none

/-- ir_print: the top-level driver.  It copies indent_size into the
indent field used by ir_print_indent and walks blocks and instructions
in declaration order. -/
def ir_print (executable : IrExecutable) (indent_size : Nat) : Option String :=
  match render_block_texts indent_size executable.basic_block_list with
  | some parts => some (String.join parts)
  | none => none

/- Concrete graphs used by the witnesses and counterexamples. -/

/-- A Runtime instruction with debug id 2 and unresolved type. -/
def exRun2 : IrInstruction := .mk 2 none 0 false .runtime

def exRun3 : IrInstruction := .mk 3 none 0 false .runtime

def exRun4 : IrInstruction := .mk 4 none 0 false .runtime

def exRun7 : IrInstruction := .mk 7 none 0 false .runtime

def exRun9 : IrInstruction := .mk 9 none 0 false .runtime

/-- A Zeroed instruction with debug id 5: its operand uses must render
inline (as "zeroes") through the operand reference renderer. -/
def exZeroed5 : IrInstruction := .mk 5 none 0 false .zeroes

/-- A store through the Zeroed instruction 5, storing the Runtime
instruction 9. -/
def exStorePtr : IrInstructionStorePtr := ⟨exZeroed5, exRun9⟩

def blkThen : IrBasicBlock := ⟨"then", 0⟩

def blkElse : IrBasicBlock := ⟨"else", 1⟩

/-- The Phi of claim C2: two incoming edges (then, #3) and (else, #4)
with Runtime incoming values. -/
def exPhi : IrInstructionPhi := ⟨2, [blkThen, blkElse], [exRun3, exRun4]⟩

/-- The type named [3]u8: array of length 3 of u8. -/
def ty3u8 : TypeTableEntry := .array "[3]u8" 3 (.int "u8")

/-- Three Zeroed elements. -/
def vZeroes3 : ConstExprValue := .static (.x_array [.zeroes, .zeroes, .zeroes])

/-- A StaticallyKnown u8 integer zero. -/
def u8zero : ConstExprValue := .static (.x_bignum ⟨.int, false, .x_uint 0⟩)

/-- Three StaticallyKnown integer zero elements. -/
def vInts3 : ConstExprValue := .static (.x_array [u8zero, u8zero, u8zero])

/-- A positional container init with Runtime container type #2 and no
items. -/
def exCIL : IrInstructionContainerInitList := ⟨exRun2, []⟩

/-- A named-fields container init with Runtime container type #2 and no
fields. -/
def exCIF : IrInstructionContainerInitFields := ⟨exRun2, []⟩

/-- A struct init of a struct type named MyStruct with no fields. -/
def exSI : IrInstructionStructInit := ⟨.struct "MyStruct", []⟩

/-- An instruction with unresolved (null) type, debug id 1, ref count
0, no side effects: exercises the "(unknown)" placeholder. -/
def exUnknownType : IrInstruction := .mk 1 none 0 false .runtime

/-- A side-effecting instruction with ref count 5. -/
def exSE : IrInstruction := .mk 2 none 5 true .runtime

/-- A side-effect-free instruction with ref count 7. -/
def exPure : IrInstruction := .mk 3 none 7 false .runtime

/-- An Unreachable instruction node (side-effecting, unresolved type,
debug id 1) as it would sit in a block. -/
def exUnreach : IrInstructionFull := ⟨.mk 1 none 0 true .runtime, .IrInstructionIdUnreachable⟩

def exBlock : IrBasicBlockFull := ⟨"entry", 0, [exUnreach]⟩

def exExe : IrExecutable := ⟨[exBlock]⟩

/-- Replaces an instruction's ref_count, leaving every other field
alone (used to state that the use-count column ignores ref_count for
side-effecting instructions). -/
def set_ref_count (i : IrInstruction) (n : Nat) : IrInstruction :=
  match i with
  | .mk d t _ se sv => .mk d t n se sv

/-- The line prefix exactly as claim C4 words it: the token "#", the
debug id padded to width 3, then the type name or the literal
placeholder "unknown" padded to width 12, then the use-count column --
with no separators.  This follows the claim text, for comparison with
the source-translated ir_print_prefix. -/
def c4_claimed_head (i : IrInstruction) : String :=
  "#" ++ pad_right (Nat.repr i.debug_id) 3
    ++ pad_right (match i.type_entry with | some t => t.name | none => "unknown") 12
    ++ ref_count_text i

/- Shared evaluation lemmas. -/

/-- The operand reference renderer on any Runtime instruction yields
the "#" ++ debug id token. -/
theorem other_eval_runtime (d : Nat) (t : Option TypeTableEntry) (rc : Nat) (se : Bool) :
    ir_print_other_instruction (.mk d t rc se .runtime) = some ("#" ++ Nat.repr d) := by
  simp [ir_print_other_instruction, IrInstruction.static_value,
    ConstExprValue.special_is_runtime, ir_print_var_instruction, IrInstruction.debug_id]

/-- C1 (as stated) is refuted by ir_print_store_ptr: render of the
concrete store through the Zeroed instruction 5. -/
theorem store_ptr_eval : ir_print_store_ptr exStorePtr = some "*#5 = #9" := by
  have h9 : ir_print_other_instruction exRun9 = some "#9" := by
    show ir_print_other_instruction (.mk 9 none 0 false .runtime) = some "#9"
    rw [other_eval_runtime]
    rfl
  simp [ir_print_store_ptr, exStorePtr, h9, ir_print_var_instruction, exZeroed5,
    IrInstruction.debug_id]
  rfl

/-- Evaluation of the empty positional container init whose container
type is the Runtime instruction 2. -/
theorem cil_eval : ir_print_container_init_list exCIL = some "#2\x7b\x7d" := by
  have h2 : ir_print_other_instruction exRun2 = some "#2" := by
    show ir_print_other_instruction (.mk 2 none 0 false .runtime) = some "#2"
    rw [other_eval_runtime]
    rfl
  simp [ir_print_container_init_list, exCIL, h2, render_operand_texts]
  rfl

/- Claim theorems. -/

/-- C3: in ir_print_const_value the evaluation state is dispatched
before and independently of the type: for every type an Undefined value
renders the literal "undefined", a Zeroed value renders the literal
"zeroes", and a Runtime value takes the fatal zig_unreachable path
(modelled as none), never a rendered, skipped or defaulted output. -/
theorem claim_C3 (ty : TypeTableEntry) :
    ir_print_const_value ty ConstExprValue.undef = some "undefined"
    ∧ ir_print_const_value ty ConstExprValue.zeroes = some "zeroes"
    ∧ ir_print_const_value ty ConstExprValue.runtime = none := by
  refine ⟨?_, ?_, ?_⟩ <;> simp [ir_print_const_value]

/-- C6: a StaticallyKnown bound-function value renders as
"bound symbol to receiver" where the receiver text is produced by the
operand reference renderer on the captured first-argument instruction;
in particular symbol foo with Runtime receiver #7 renders exactly
"bound foo to #7". -/
theorem claim_C6 :
    (∀ (tn : String) (fe : FnTableEntry) (arg : IrInstruction) (r : String),
      ir_print_other_instruction arg = some r →
      ir_print_const_value (.boundFn tn) (.static (.x_bound_fn fe arg))
        = some ("bound " ++ fe.symbol_name ++ " to " ++ r))
    ∧ ir_print_const_value (.boundFn "(bound fn)") (.static (.x_bound_fn ⟨"foo"⟩ exRun7))
        = some "bound foo to #7" := by
  constructor
  · intro tn fe arg r h
    simp [ir_print_const_value, h]
  · have h7 : ir_print_other_instruction exRun7 = some "#7" := by
      show ir_print_other_instruction (.mk 7 none 0 false .runtime) = some "#7"
      rw [other_eval_runtime]
      rfl
    simp [ir_print_const_value, h7]

/-- C6 witness: the general part of claim_C6 applied to the concrete
symbol bar and Runtime receiver #9. -/
theorem claim_C6_witness :
    ir_print_const_value (.boundFn "(bound fn)") (.static (.x_bound_fn ⟨"bar"⟩ exRun9))
      = some ("bound " ++ "bar" ++ " to " ++ "#9") :=
  claim_C6.1 "(bound fn)" ⟨"bar"⟩ exRun9 "#9" (by
    show ir_print_other_instruction (.mk 9 none 0 false .runtime) = some "#9"
    rw [other_eval_runtime]
    rfl)

/-- C7: a StaticallyKnown array value renders as the array type's name,
"\x7b", the elements rendered recursively at the element type and
joined by commas with no trailing comma, and "\x7d"; in particular
[3]u8 with three Zeroed elements renders "[3]u8{zeroes,zeroes,zeroes}"
and with three StaticallyKnown integer zeros renders "[3]u8{0,0,0}". -/
theorem claim_C7 :
    (∀ (name : String) (len : Nat) (child : TypeTableEntry)
        (elements : List ConstExprValue) (ss : List String),
      ir_print_elements child elements len = some ss →
      ir_print_const_value (.array name len child) (.static (.x_array elements))
        = some (name ++ "\x7b" ++ String.intercalate "," ss ++ "\x7d"))
    ∧ ir_print_const_value ty3u8 vZeroes3 = some "[3]u8\x7bzeroes,zeroes,zeroes\x7d"
    ∧ ir_print_const_value ty3u8 vInts3 = some "[3]u8\x7b0,0,0\x7d" := by
  refine ⟨?_, ?_, ?_⟩
  · intro name len child elements ss h
    simp [ir_print_const_value, h]
  · simp [ir_print_const_value, ty3u8, vZeroes3, ir_print_elements]
    rfl
  · simp [ir_print_const_value, ty3u8, vInts3, u8zero, ir_print_elements]
    rfl

/-- C7 witness: the general part of claim_C7 applied to a concrete
two-element Zeroed array. -/
theorem claim_C7_witness :
    ir_print_const_value (.array "[2]u8" 2 (.int "u8")) (.static (.x_array [.zeroes, .zeroes]))
      = some ("[2]u8" ++ "\x7b" ++ String.intercalate "," ["zeroes", "zeroes"] ++ "\x7d") :=
  claim_C7.1 "[2]u8" 2 (.int "u8") [.zeroes, .zeroes] ["zeroes", "zeroes"]
    (by simp [ir_print_elements, ir_print_const_value])

/-- C1 counterexample: the claim as stated says every operand use of a
non-Runtime instruction renders the inline value form and never a bare
"#id" token.  The store-pointer instruction refutes it: storing through
the Zeroed instruction 5 renders the pointer operand as "#5", not as
its value form "zeroes". -/
theorem claim_C1_counterexample :
    exStorePtr.ptr.static_value = ConstExprValue.zeroes
    ∧ ir_print_store_ptr exStorePtr = some "*#5 = #9"
    ∧ ("*#5 = #9" : String) ≠ "*zeroes = #9" :=
  ⟨rfl, store_ptr_eval, by decide⟩

/-- C1 amended: every Runtime instruction renders as the short token
"#" ++ debug id wherever the operand reference renderer is used, and
every non-Runtime instruction renders there as its inline constant
value; the one exception forced by the code is the store-pointer
instruction, whose pointer operand is always rendered as the "#id"
token regardless of its evaluation state. -/
theorem claim_C1_amended :
    (∀ i : IrInstruction, i.static_value = ConstExprValue.runtime →
      ir_print_other_instruction i = some ("#" ++ Nat.repr i.debug_id))
    ∧ (∀ i : IrInstruction, i.static_value ≠ ConstExprValue.runtime →
      ir_print_other_instruction i = ir_print_const_instruction i)
    ∧ (∀ (p : IrInstructionStorePtr) (s : String), ir_print_store_ptr p = some s →
      ∃ t, s = "*" ++ ("#" ++ Nat.repr p.ptr.debug_id) ++ " = " ++ t) := by
  refine ⟨?_, ?_, ?_⟩
  · intro i h
    simp [ir_print_other_instruction, h, ConstExprValue.special_is_runtime,
      ir_print_var_instruction]
  · intro i h
    have hb : i.static_value.special_is_runtime = false := by
      cases hsv : i.static_value with
      | runtime => exact absurd hsv h
      | undef => rfl
      | zeroes => rfl
      | static d => rfl
    simp [ir_print_other_instruction, hb]
  · intro p s h
    cases hv : ir_print_other_instruction p.value with
    | none => simp [ir_print_store_ptr, hv] at h
    | some v =>
      simp [ir_print_store_ptr, hv, ir_print_var_instruction] at h
      exact ⟨v, h.symm⟩

/-- C1 witness: the amended theorem applied to the Runtime instruction
3 and to the concrete store through the Zeroed instruction 5. -/
theorem claim_C1_witness :
    ir_print_other_instruction exRun3 = some ("#" ++ Nat.repr 3)
    ∧ ∃ t, ("*#5 = #9" : String) = "*" ++ ("#" ++ Nat.repr 5) ++ " = " ++ t :=
  ⟨claim_C1_amended.1 exRun3 rfl,
   claim_C1_amended.2.2 exStorePtr "*#5 = #9" store_ptr_eval⟩

/-- Evaluation of the concrete Phi of claim C2: the code renders the
block tokens with a "$" sigil. -/
theorem phi_eval : ir_print_phi exPhi = some "$then_0:#3 $else_1:#4" := by
  have hc : ¬((2 : Nat) = 0 ∨ (2 : Nat) = SIZE_MAX) := by norm_num [SIZE_MAX]
  have h3 : ir_print_other_instruction exRun3 = some "#3" := by
    show ir_print_other_instruction (.mk 3 none 0 false .runtime) = some "#3"
    rw [other_eval_runtime]
    rfl
  have h4 : ir_print_other_instruction exRun4 = some "#4" := by
    show ir_print_other_instruction (.mk 4 none 0 false .runtime) = some "#4"
    rw [other_eval_runtime]
    rfl
  simp [ir_print_phi, exPhi, hc, ir_print_phi_body, ir_print_phi_pairs,
    h3, h4, blkThen, blkElse, ir_print_other_block]
  exact ⟨by norm_num [SIZE_MAX], by rfl⟩

/-- C2 counterexample: the Phi with incoming edges (then_0, #3) and
(else_1, #4) does not render "then_0:#3 else_1:#4" — the incoming-block
tokens carry a "$" sigil. -/
theorem claim_C2_counterexample :
    ir_print_phi exPhi ≠ some "then_0:#3 else_1:#4" := by
  rw [phi_eval]
  decide

/-- C2 amended: that Phi renders exactly "$then_0:#3 $else_1:#4" — each
incoming pair is block token, colon, value token, pairs separated by a
single space, and each block token is "$" ++ name hint ++ "_" ++ debug
id. -/
theorem claim_C2_amended :
    ir_print_phi exPhi = some "$then_0:#3 $else_1:#4" :=
  phi_eval

/-- C4 counterexample: at the concrete instruction with null type the
rendered prefix is "#1  | (unknown)   | 0 | " while the prefix the
claim describes (placeholder "unknown", no column separators) is
"#1  unknown     0". -/
theorem claim_C4_counterexample :
    ir_print_prefix 0 exUnknownType ≠ c4_claimed_head exUnknownType := by
  decide

/-- C4 amended: the line prefix is the indent, the token "#", the debug
id left-justified to width 3, the separator "| ", the resolved type's
name — or the literal placeholder "(unknown)" when the type is null —
left-justified to width 12, the separator "| ", then the use-count
column left-justified to width 2 and a final "| ". -/
theorem claim_C4_amended (indent : Nat) (i : IrInstruction) :
    ir_print_prefix indent i =
      ir_print_indent indent ++ "#" ++ pad_right (Nat.repr i.debug_id) 3 ++ "| "
        ++ pad_right ((i.type_entry).elim "(unknown)" TypeTableEntry.name) 12 ++ "| "
        ++ pad_right (ref_count_text i) 2 ++ "| " := by
  cases h : i.type_entry <;> simp [ ir_print_prefix, type_name_text, h]

/-- C5: the use-count column is exactly "-" for an instruction flagged
as having side effects — regardless of its actual reference count, so
the whole prefix is unchanged when the count changes — and exactly the
decimal reference count otherwise. -/
theorem claim_C5 (i : IrInstruction) :
    (ir_has_side_effects i = true →
      ref_count_text i = "-"
      ∧ ∀ (n indent : Nat), ir_print_prefix indent (set_ref_count i n) = ir_print_prefix indent i)
    ∧ (ir_has_side_effects i = false → ref_count_text i = Nat.repr i.ref_count) := by
  constructor
  · intro h
    refine ⟨by simp [ref_count_text, h], ?_⟩
    intro n indent
    cases i with
    | mk d t rc se sv =>
      simp [set_ref_count, ir_print_prefix, type_name_text, ref_count_text,
        ir_has_side_effects, IrInstruction.has_side_effects, IrInstruction.type_entry,
        IrInstruction.debug_id, IrInstruction.ref_count, h] at h ⊢
      simp [h]
  · intro h
    simp [ref_count_text, h]

/-- C5 witness: claim_C5 applied to the side-effecting instruction with
ref count 5 (column "-", prefix unchanged when the count is set to 0)
and to the side-effect-free instruction with ref count 7 (column "7"). -/
theorem claim_C5_witness :
    (ref_count_text exSE = "-"
      ∧ ir_print_prefix 0 (set_ref_count exSE 0) = ir_print_prefix 0 exSE)
    ∧ ref_count_text exPure = Nat.repr 7 :=
  ⟨⟨((claim_C5 exSE).1 rfl).1, ((claim_C5 exSE).1 rfl).2 0 0⟩, (claim_C5 exPure).2 rfl⟩

/-- C8 counterexample: the positional container-init form renders no
trailing comment — the concrete empty positional init with Runtime
container type #2 renders "#2{}", which cannot be any text followed by
" // container init". -/
theorem claim_C8_counterexample :
    ir_print_container_init_list exCIL = some "#2\x7b\x7d"
    ∧ ¬∃ t : String, ("#2\x7b\x7d" : String) = t ++ " // container init" := by
  refine ⟨cil_eval, ?_⟩
  rintro ⟨t, ht⟩
  have hl := congrArg String.length ht
  rw [String.length_append] at hl
  have e1 : ("#2\x7b\x7d" : String).length = 4 := rfl
  have e2 : (" // container init" : String).length = 18 := rfl
  rw [e1, e2] at hl
  omega

/-- C8 amended: the named-fields container-init form always ends with
the closing brace followed by " // container init" and the struct-init
form with the closing brace followed by " // struct init"; the
positional container-init form ends at the closing brace with no
trailing comment. -/
theorem claim_C8_amended :
    (∀ (p : IrInstructionContainerInitFields) (s : String),
      ir_print_container_init_fields p = some s → ∃ t, s = t ++ "\x7d // container init")
    ∧ (∀ (p : IrInstructionStructInit) (s : String),
      ir_print_struct_init p = some s → ∃ t, s = t ++ "\x7d // struct init")
    ∧ (∀ (p : IrInstructionContainerInitList) (s : String),
      ir_print_container_init_list p = some s → ∃ t, s = t ++ "\x7d") := by
  refine ⟨?_, ?_, ?_⟩
  · intro p s h
    cases hc : ir_print_other_instruction p.container_type with
    | none => simp [ir_print_container_init_fields, hc] at h
    | some ct =>
      cases hf : render_container_field_texts p.fields with
      | none => simp [ir_print_container_init_fields, hc, hf] at h
      | some fs =>
        simp [ir_print_container_init_fields, hc, hf] at h
        exact ⟨ct ++ "\x7b" ++ String.intercalate ", " fs, h.symm⟩
  · intro p s h
    cases hf : render_struct_field_texts p.fields with
    | none => simp [ir_print_struct_init, hf] at h
    | some fs =>
      simp [ir_print_struct_init, hf] at h
      exact ⟨p.struct_type.name ++ " \x7b" ++ String.intercalate ", " fs, h.symm⟩
  · intro p s h
    cases hc : ir_print_other_instruction p.container_type with
    | none => simp [ir_print_container_init_list, hc] at h
    | some ct =>
      cases hi : render_operand_texts p.items with
      | none => simp [ir_print_container_init_list, hc, hi] at h
      | some items =>
        simp [ir_print_container_init_list, hc, hi] at h
        exact ⟨ct ++ "\x7b" ++ String.intercalate ", " items, h.symm⟩

/-- C8 witness: the amended theorem applied to the concrete empty
named-fields init ("#2{} // container init"), the concrete empty struct
init ("MyStruct {} // struct init"), and the concrete empty positional
init ("#2{}"). -/
theorem claim_C8_witness :
    (∃ t, ("#2\x7b\x7d // container init" : String) = t ++ "\x7d // container init")
    ∧ (∃ t, ("MyStruct \x7b\x7d // struct init" : String) = t ++ "\x7d // struct init")
    ∧ (∃ t, ("#2\x7b\x7d" : String) = t ++ "\x7d") := by
  have h2 : ir_print_other_instruction exRun2 = some "#2" := by
    show ir_print_other_instruction (.mk 2 none 0 false .runtime) = some "#2"
    rw [other_eval_runtime]
    rfl
  refine ⟨claim_C8_amended.1 exCIF _ ?_, claim_C8_amended.2.1 exSI _ ?_,
    claim_C8_amended.2.2 exCIL _ cil_eval⟩
  · simp [ir_print_container_init_fields, exCIF, h2, render_container_field_texts]
    rfl
  · simp [ir_print_struct_init, exSI, render_struct_field_texts]
    rfl

/-- The Phi pair loop succeeds whenever the count is within both arrays
and every incoming value renders. -/
theorem phi_pairs_isSome (len : Nat) (blocks : List IrBasicBlock)
    (values : List IrInstruction) (hb : len ≤ blocks.length) (hv : len ≤ values.length)
    (h : ∀ v ∈ values, (ir_print_other_instruction v).isSome) :
    (ir_print_phi_pairs blocks values len).isSome := by
  induction len generalizing blocks values with
  | zero => simp [ir_print_phi_pairs]
  | succ n ih =>
    cases blocks with
    | nil => simp at hb
    | cons b bs =>
      cases values with
      | nil => simp at hv
      | cons v vs =>
        have h1 : (ir_print_other_instruction v).isSome := h v (List.mem_cons_self v vs)
        have h2 := ih bs vs (by simp at hb; omega) (by simp at hv; omega)
          (fun x hx => h x (List.mem_cons_of_mem v hx))
        obtain ⟨s, hs⟩ := Option.isSome_iff_exists.mp h1
        obtain ⟨ss, hss⟩ := Option.isSome_iff_exists.mp h2
        simp [ir_print_phi_pairs, hs, hss]

/-- C9: a Phi whose incoming count is at least one and is not the
SIZE_MAX sentinel passes both asserts, so rendering proceeds to the
pair loop (and succeeds whenever the edges are well formed and each
incoming value renders); a Phi with zero or sentinel incoming count is
a contract violation — the render takes the fatal assert path. -/
theorem claim_C9 (p : IrInstructionPhi) :
    ((p.incoming_count = 0 ∨ p.incoming_count = SIZE_MAX) → ir_print_phi p = none)
    ∧ (1 ≤ p.incoming_count → p.incoming_count ≠ SIZE_MAX →
        ir_print_phi p = ir_print_phi_body p
        ∧ (p.incoming_count ≤ p.incoming_blocks.length →
          p.incoming_count ≤ p.incoming_values.length →
          (∀ v ∈ p.incoming_values, (ir_print_other_instruction v).isSome) →
          (ir_print_phi p).isSome)) := by
  constructor
  · intro h
    simp [ir_print_phi, h]
  · intro h1 h2
    have hcond : ¬(p.incoming_count = 0 ∨ p.incoming_count = SIZE_MAX) := by
      rintro (h0 | hmax)
      · omega
      · exact h2 hmax
    constructor
    · simp [ir_print_phi, hcond]
    · intro hb hv hall
      have hp := phi_pairs_isSome p.incoming_count p.incoming_blocks p.incoming_values
        hb hv hall
      obtain ⟨ps, hps⟩ := Option.isSome_iff_exists.mp hp
      simp [ir_print_phi, hcond, ir_print_phi_body, hps]

/-- C9 witness: the concrete two-edge Phi passes the asserts and its
render succeeds. -/
theorem claim_C9_witness :
    ir_print_phi exPhi = ir_print_phi_body exPhi ∧ (ir_print_phi exPhi).isSome := by
  have h3 : (ir_print_other_instruction exRun3).isSome := by
    show (ir_print_other_instruction (.mk 3 none 0 false .runtime)).isSome
    rw [other_eval_runtime]
    rfl
  have h4 : (ir_print_other_instruction exRun4).isSome := by
    show (ir_print_other_instruction (.mk 4 none 0 false .runtime)).isSome
    rw [other_eval_runtime]
    rfl
  have h := (claim_C9 exPhi).2 (by norm_num [exPhi]) (by norm_num [exPhi, SIZE_MAX])
  refine ⟨h.1, h.2 (by norm_num [exPhi]) (by norm_num [exPhi]) ?_⟩
  intro v hv
  have : v = exRun3 ∨ v = exRun4 := by simpa [exPhi] using hv
  rcases this with h | h
  · rw [h]; exact h3
  · rw [h]; exact h4

/-- The character data of a rendered line prefix: the indent spaces,
then the "#" character, then the rest of the prefix columns. -/
theorem prefix_data_split (indent : Nat) (i : IrInstruction) :
    ( ir_print_prefix indent i).data
      = List.replicate indent ' '
        ++ '#' :: (pad_right (Nat.repr i.debug_id) 3 ++ "| " ++ pad_right (type_name_text i) 12
          ++ "| " ++ pad_right (ref_count_text i) 2 ++ "| ").data := by
  have hh : ("#" : String).data = ['#'] := rfl
  simp [ ir_print_prefix, ir_print_indent, String.data_append, hh]

/-- C10: block label lines start at column zero with the block's name
hint (the driver prepends nothing to them), every instruction line
starts with exactly indent_size spaces — the character at position
indent_size is "#", not a space — and ends with a newline, and the dump
is the concatenation of the per-block texts. -/
theorem claim_C10 (indent : Nat) :
    (∀ (b : IrBasicBlockFull) (s : String), ir_print_block indent b = some s →
      ∃ rest, s = b.name_hint ++ "_" ++ Nat.repr b.debug_id ++ ":\n" ++ rest)
    ∧ (∀ (f : IrInstructionFull) (s : String), ir_print_instruction indent f = some s →
      s.data.take indent = List.replicate indent ' ' ∧ s.data[indent]? = some '#')
    ∧ (∀ (f : IrInstructionFull) (s : String), ir_print_instruction indent f = some s →
      ∃ t, s = t ++ "\n")
    ∧ (∀ (exe : IrExecutable) (s : String), ir_print exe indent = some s →
      ∃ parts, render_block_texts indent exe.basic_block_list = some parts
        ∧ s = String.join parts) := by
  refine ⟨?_, ?_, ?_, ?_⟩
  · intro b s h
    cases hl : render_instruction_lines indent b.instruction_list with
    | none => simp [ir_print_block, hl] at h
    | some lines =>
      simp [ir_print_block, hl] at h
      exact ⟨String.join lines, h.symm⟩
  · intro f s h
    cases hb : ir_print_instruction_body f with
    | none => simp [ir_print_instruction, hb] at h
    | some body =>
      simp [ir_print_instruction, hb] at h
      have hd : s.data
          = List.replicate indent ' '
            ++ '#' :: ((pad_right (Nat.repr f.base.debug_id) 3 ++ "| "
              ++ pad_right (type_name_text f.base) 12 ++ "| "
              ++ pad_right (ref_count_text f.base) 2 ++ "| ").data
              ++ (body.data ++ "\n".data)) := by
        rw [← h]
        simp [String.data_append, prefix_data_split]
      constructor
      · rw [hd]
        exact List.take_left' (by simp)
      · rw [hd]
        rw [List.getElem?_append_right (by simp)]
        simp
  · intro f s h
    cases hb : ir_print_instruction_body f with
    | none => simp [ir_print_instruction, hb] at h
    | some body =>
      simp [ir_print_instruction, hb] at h
      exact ⟨ ir_print_prefix indent f.base ++ body, h.symm⟩
  · intro exe s h
    cases hp : render_block_texts indent exe.basic_block_list with
    | none => simp [ir_print, hp] at h
    | some parts =>
      simp [ir_print, hp] at h
      exact ⟨parts, rfl, h.symm⟩

/-- C10 witness: claim_C10 at indent 2 applied to the concrete one
block, one instruction executable: the block label line starts with
"entry" at column zero, the instruction line starts with two spaces
followed by "#" and ends with a newline, and the dump is the join of
the block texts. -/
theorem claim_C10_witness :
    (∃ rest, ("entry_0:\n  #1  | (unknown)   | - | unreachable\n" : String)
      = "entry" ++ "_" ++ Nat.repr 0 ++ ":\n" ++ rest)
    ∧ (("  #1  | (unknown)   | - | unreachable\n" : String).data.take 2
        = List.replicate 2 ' '
      ∧ ("  #1  | (unknown)   | - | unreachable\n" : String).data[2]? = some '#')
    ∧ (∃ t, ("  #1  | (unknown)   | - | unreachable\n" : String) = t ++ "\n")
    ∧ (∃ parts, render_block_texts 2 exExe.basic_block_list = some parts
      ∧ ("entry_0:\n  #1  | (unknown)   | - | unreachable\n" : String)
          = String.join parts) :=
  ⟨(claim_C10 2).1 exBlock _ (by rfl),
   (claim_C10 2).2.1 exUnreach _ (by rfl),
   (claim_C10 2).2.2.1 exUnreach _ (by rfl),
   (claim_C10 2).2.2.2 exExe _ (by rfl)⟩

/-- C3 witness: claim_C3 applied at the concrete type i32. -/
theorem claim_C3_witness :
    ir_print_const_value (TypeTableEntry.int "i32") ConstExprValue.undef = some "undefined"
    ∧ ir_print_const_value (TypeTableEntry.int "i32") ConstExprValue.zeroes = some "zeroes"
    ∧ ir_print_const_value (TypeTableEntry.int "i32") ConstExprValue.runtime = none :=
  claim_C3 (TypeTableEntry.int "i32")

/-- C4 witness: the amended prefix equation at indent 0 for the
concrete instruction with null type. -/
theorem claim_C4_witness :
    ir_print_prefix 0 exUnknownType
      = ir_print_indent 0 ++ "#" ++ pad_right (Nat.repr 1) 3 ++ "| "
        ++ pad_right "(unknown)" 12 ++ "| "
        ++ pad_right (ref_count_text exUnknownType) 2 ++ "| " :=
  claim_C4_amended 0 exUnknownType

end ZigIr
